import Mathlib

/-!
Shallow embedding of the Articuno weather service core: the `rootHandler`
and `getWeatherData` functions of the final revision in the repository
(the revision using `url.QueryEscape(strings.TrimSpace(html.EscapeString(city)))`,
a discarded-error Redis GET, and a one-hour TTL Redis SET).

External effects (the Redis store, the upstream HTTP provider) are modelled
by an oracle `World`; `getWeatherData` returns its Go result together with
the updated store contents and a trace of the I/O commands it issued.
-/

/-- The double-quote character (code 34). -/
def quot34 : Char := Char.ofNat 34

/-- The apostrophe character (code 39). -/
def apos39 : Char := Char.ofNat 39

/-- Go `html.EscapeString`, per character: the five characters
`&ampersand, apostrophe, less-than, greater-than, double-quote` are replaced by
their entities, every other character is kept. -/
def escapeCharL (c : Char) : List Char :=
  if c = '&' then "&amp;".data
  else if c = apos39 then "&#39;".data
  else if c = '<' then "&lt;".data
  else if c = '>' then "&gt;".data
  else if c = quot34 then "&#34;".data
  else [c]

/-- Go `html.EscapeString` on a character list. -/
def htmlEscapeList : List Char → List Char
  | [] => []
  | c :: cs => escapeCharL c ++ htmlEscapeList cs

/-- Go `html.EscapeString`. -/
def htmlEscapeString (s : String) : String :=
  ⟨htmlEscapeList s.data⟩

/-- Go `unicode.IsSpace`: ASCII whitespace (tab through carriage return,
space), next line (U+0085), no-break space (U+00A0), and the Unicode
space-separator code points. -/
def goIsSpace (c : Char) : Bool :=
  let n := c.toNat
  (9 ≤ n && n ≤ 13) || n = 32 || n = 0x85 || n = 0xA0 || n = 0x1680 ||
  (0x2000 ≤ n && n ≤ 0x200A) || n = 0x2028 || n = 0x2029 || n = 0x202F ||
  n = 0x205F || n = 0x3000

/-- Go `strings.TrimSpace` on a character list: drop leading and trailing
whitespace. -/
def goTrimSpace (l : List Char) : List Char :=
  ((l.dropWhile goIsSpace).reverse.dropWhile goIsSpace).reverse

/-- UTF-8 encoding of one code point, as the list of its byte values. -/
def utf8Bytes (c : Char) : List Nat :=
  let n := c.toNat
  if n < 0x80 then [n]
  else if n < 0x800 then
    [0xC0 + n / 64, 0x80 + n % 64]
  else if n < 0x10000 then
    [0xE0 + n / 4096, 0x80 + (n / 64) % 64, 0x80 + n % 64]
  else
    [0xF0 + n / 262144, 0x80 + (n / 4096) % 64, 0x80 + (n / 64) % 64, 0x80 + n % 64]

/-- Bytes Go `url.QueryEscape` leaves unescaped: ASCII alphanumerics and
`-`, `_`, `.`, `~`. -/
def isUnreservedByte (b : Nat) : Bool :=
  (65 ≤ b && b ≤ 90) || (97 ≤ b && b ≤ 122) || (48 ≤ b && b ≤ 57) ||
  b = 45 || b = 95 || b = 46 || b = 126

/-- Upper-case hexadecimal digit for a value below 16. -/
def upperHexDigit (n : Nat) : Char :=
  if n < 10 then Char.ofNat (48 + n) else Char.ofNat (55 + n)

/-- Go `url.QueryEscape`, per byte: unreserved bytes are kept, a space
becomes `+`, every other byte becomes `%` followed by two upper-case hex
digits. -/
def escapeByte (b : Nat) : List Char :=
  if isUnreservedByte b then [Char.ofNat b]
  else if b = 32 then ['+']
  else ['%', upperHexDigit (b / 16), upperHexDigit (b % 16)]

/-- Go `url.QueryEscape` on a character list: escape the UTF-8 bytes. -/
def queryEscapeList (l : List Char) : List Char :=
  ((l.map utf8Bytes).flatten.map escapeByte).flatten

/-- The normalization `getWeatherData` applies to its `city` argument:
`url.QueryEscape(strings.TrimSpace(html.EscapeString(city)))`. -/
def normalizeCity (city : String) : String :=
  ⟨queryEscapeList (goTrimSpace (htmlEscapeList city.data))⟩

/-- Outcome of `io.ReadAll(resp.Body)`: the full body, or a read error. -/
inductive BodyRead where
  | ok (body : String)
  | failed
deriving DecidableEq

/-- Outcome of `http.Get(url)`: a transport error (`err != nil`), or a
response with a status code and a body. -/
inductive UpstreamResult where
  | netErr
  | resp (statusCode : Nat) (body : BodyRead)
deriving DecidableEq

/-- The `error` values `getWeatherData` can return: the empty-city
rejection, a propagated `http.Get` error, the non-200 status error, a
propagated body-read error, and a propagated Redis `Set` error. -/
inductive GoErr where
  | emptyCity
  | netErr
  | badStatus (code : Nat)
  | readErr
  | writeErr
deriving DecidableEq

/-- Errors the spec groups under `UpstreamUnavailable`: the weather
provider could not be reached or returned a non-success status. -/
def isUpstreamUnavailable : GoErr → Bool
  | .netErr => true
  | .badStatus _ => true
  | _ => false

/-- Oracle for the external collaborators of one `getWeatherData` call:
the current Redis contents, whether the Redis `Get` fails with a non-`Nil`
error, whether the Redis `Set` of a given key/value fails, and what
`http.Get` returns for a given URL. -/
structure World where
  store : String → Option String
  readFails : String → Bool
  writeFails : String → String → Bool
  upstream : String → UpstreamResult

/-- The string `val` produced by `val, _ := rdb.Get(ctx, city).Result()`:
the stored value on success, and the empty string when the key is absent
or the`Get` fails (the error is discarded by the code). -/
def cacheVal (w : World) (key : String) : String :=
  if w.readFails key then "" else (w.store key).getD ""

/-- The upstream request URL
`fmt.Sprintf("https://weather.visualcrossing.com/VisualCrossingWebServices/rest/services/timeline/%s?key=%s", city, apiKey)`. -/
def buildURL (city apiKey : String) : String :=
  "https://weather.visualcrossing.com/VisualCrossingWebServices/rest/services/timeline/"
    ++ city ++ "?key=" ++ apiKey

/-- The I/O commands a call issued: Redis `Get` keys, `http.Get` URLs, and
Redis `Set` commands (key, value, TTL in seconds) — including a `Set` that
the store then fails. -/
structure Trace where
  cacheReads : List String
  upstreamCalls : List String
  cacheWrites : List (String × String × Nat)
deriving DecidableEq

/-- The TTL passed to `rdb.Set`: Go `time.Hour`, in seconds. -/
def timeHour : Nat := 3600

/-- Result of one `getWeatherData` call: the Go return value, the Redis
contents afterwards, and the trace of issued commands. -/
structure RunOut where
  result : Except GoErr String
  store : String → Option String
  trace : Trace

/-- The function `getWeatherData(city, rdb, apiKey)`: normalize the city, reject it if
empty, read Redis discarding any error, return a non-empty value as a hit,
otherwise fetch the upstream URL; on a 200 response read the whole body,
`Set` it under the key with a one-hour TTL, and return it — propagating a
transport error, a non-200 status, a body-read error, or a `Set` error. -/
def getWeatherData (city apiKey : String) (w : World) : RunOut :=
  let key := normalizeCity city
  if key = "" then
    ⟨.error .emptyCity, w.store, ⟨[], [], []⟩⟩
  else
    let val := cacheVal w key
    if val = "" then
      match w.upstream (buildURL key apiKey) with
      | .netErr => ⟨.error .netErr, w.store, ⟨[key], [buildURL key apiKey], []⟩⟩
      | .resp code body =>
        if code = 200 then
          match body with
          | .failed => ⟨.error .readErr, w.store, ⟨[key], [buildURL key apiKey], []⟩⟩
          | .ok b =>
            if w.writeFails key b then
              ⟨.error .writeErr, w.store,
                ⟨[key], [buildURL key apiKey], [(key, b, timeHour)]⟩⟩
            else
              ⟨.ok b, fun k => if k = key then some b else w.store k,
                ⟨[key], [buildURL key apiKey], [(key, b, timeHour)]⟩⟩
        else
          ⟨.error (.badStatus code), w.store, ⟨[key], [buildURL key apiKey], []⟩⟩
    else
      ⟨.ok val, w.store, ⟨[key], [], []⟩⟩

/-- Two `getWeatherData` calls in immediate succession: the second call
runs against the store the first call left behind, with the same oracle
otherwise (no intervening expiration, same upstream behavior). -/
def resolveTwice (city apiKey : String) (w : World) : RunOut × RunOut :=
  let o1 := getWeatherData city apiKey w
  (o1, getWeatherData city apiKey { w with store := o1.store })

/-- An HTTP response of `rootHandler`: status code and body text. -/
structure HttpOut where
  status : Nat
  body : String
  store : String → Option String
  trace : Trace

/-- The `POST` branch of `rootHandler`: call `getWeatherData` on the raw
`city` form field; on error answer `404 "City not found"`; on success
answer `200` writing the payload and then
`"City: %s, Weather Data: %s"` with the HTML-escaped field and the
payload. (The non-`POST` branch only renders the input form template and
is outside the lookup core.) -/
def rootHandlerPost (cityField apiKey : String) (w : World) : HttpOut :=
  let out := getWeatherData cityField apiKey w
  match out.result with
  | .error _ => ⟨404, "City not found", out.store, out.trace⟩
  | .ok wd =>
      ⟨200, wd ++ "City: " ++ htmlEscapeString cityField ++ ", Weather Data: " ++ wd,
        out.store, out.trace⟩

/-- Path lemma: an input whose normalization is empty is rejected before
any I/O. -/
theorem gwd_empty (city apiKey : String) (w : World)
    (h : normalizeCity city = "") :
    getWeatherData city apiKey w = ⟨.error .emptyCity, w.store, ⟨[], [], []⟩⟩ := by
  unfold getWeatherData
  simp [h]

/-- Path lemma: a non-empty cached value is returned as a hit with no
upstream call and no write. -/
theorem gwd_hit (city apiKey : String) (w : World)
    (hkey : normalizeCity city ≠ "")
    (hval : cacheVal w (normalizeCity city) ≠ "") :
    getWeatherData city apiKey w =
      ⟨.ok (cacheVal w (normalizeCity city)), w.store,
        ⟨[normalizeCity city], [], []⟩⟩ := by
  unfold getWeatherData
  simp [hkey, hval]

/-- Path lemma: on a miss, a transport error of `http.Get` is propagated;
nothing is written. -/
theorem gwd_netErr (city apiKey : String) (w : World)
    (hkey : normalizeCity city ≠ "")
    (hval : cacheVal w (normalizeCity city) = "")
    (hu : w.upstream (buildURL (normalizeCity city) apiKey) = .netErr) :
    getWeatherData city apiKey w =
      ⟨.error .netErr, w.store,
        ⟨[normalizeCity city], [buildURL (normalizeCity city) apiKey], []⟩⟩ := by
  unfold getWeatherData
  simp [hkey, hval, hu]

/-- Path lemma: on a miss, a non-200 status yields the status-code error;
nothing is written. -/
theorem gwd_badStatus (city apiKey : String) (w : World) (code : Nat)
    (body : BodyRead)
    (hkey : normalizeCity city ≠ "")
    (hval : cacheVal w (normalizeCity city) = "")
    (hu : w.upstream (buildURL (normalizeCity city) apiKey) = .resp code body)
    (hc : code ≠ 200) :
    getWeatherData city apiKey w =
      ⟨.error (.badStatus code), w.store,
        ⟨[normalizeCity city], [buildURL (normalizeCity city) apiKey], []⟩⟩ := by
  unfold getWeatherData
  simp [hkey, hval, hu, hc]

/-- Path lemma: on a miss with a 200 response, a body-read error is
propagated; nothing is written. -/
theorem gwd_readErr (city apiKey : String) (w : World)
    (hkey : normalizeCity city ≠ "")
    (hval : cacheVal w (normalizeCity city) = "")
    (hu : w.upstream (buildURL (normalizeCity city) apiKey) = .resp 200 .failed) :
    getWeatherData city apiKey w =
      ⟨.error .readErr, w.store,
        ⟨[normalizeCity city], [buildURL (normalizeCity city) apiKey], []⟩⟩ := by
  unfold getWeatherData
  simp [hkey, hval, hu]

/-- Path lemma: on a miss with a 200 response and readable body, a failing
`Set` makes the whole call fail, discarding the fetched payload. -/
theorem gwd_writeFail (city apiKey : String) (w : World) (b : String)
    (hkey : normalizeCity city ≠ "")
    (hval : cacheVal w (normalizeCity city) = "")
    (hu : w.upstream (buildURL (normalizeCity city) apiKey) = .resp 200 (.ok b))
    (hw : w.writeFails (normalizeCity city) b = true) :
    getWeatherData city apiKey w =
      ⟨.error .writeErr, w.store,
        ⟨[normalizeCity city], [buildURL (normalizeCity city) apiKey],
          [(normalizeCity city, b, timeHour)]⟩⟩ := by
  unfold getWeatherData
  simp [hkey, hval, hu, hw]

/-- Path lemma: on a miss with a 200 response, readable body and a
successful `Set`, the body is cached under the key with the one-hour TTL
and returned. -/
theorem gwd_writeOk (city apiKey : String) (w : World) (b : String)
    (hkey : normalizeCity city ≠ "")
    (hval : cacheVal w (normalizeCity city) = "")
    (hu : w.upstream (buildURL (normalizeCity city) apiKey) = .resp 200 (.ok b))
    (hw : w.writeFails (normalizeCity city) b = false) :
    getWeatherData city apiKey w =
      ⟨.ok b, fun k => if k = normalizeCity city then some b else w.store k,
        ⟨[normalizeCity city], [buildURL (normalizeCity city) apiKey],
          [(normalizeCity city, b, timeHour)]⟩⟩ := by
  unfold getWeatherData
  simp [hkey, hval, hu, hw]

/-- Trimming yields the empty list exactly when every character is
whitespace. -/
theorem goTrimSpace_eq_nil_iff (l : List Char) :
    goTrimSpace l = [] ↔ ∀ c ∈ l, goIsSpace c = true := by
  unfold goTrimSpace
  rw [List.reverse_eq_nil_iff, List.dropWhile_eq_nil_iff]
  constructor
  · intro h c hc
    have := List.takeWhile_append_dropWhile (p := goIsSpace) (l := l)
    rw [← this] at hc
    rcases List.mem_append.mp hc with h1 | h2
    · exact List.mem_takeWhile_imp h1
    · exact h c (List.mem_reverse.mpr h2)
  · intro h c hc
    exact h c ((List.dropWhile_sublist goIsSpace).subset (List.mem_reverse.mp hc))

/-- A whitespace character is left unchanged by the HTML escaper. -/
theorem escapeCharL_of_space (c : Char) (h : goIsSpace c = true) :
    escapeCharL c = [c] := by
  unfold escapeCharL
  rw [if_neg, if_neg, if_neg, if_neg, if_neg]
  all_goals intro he
  all_goals subst he
  all_goals revert h
  all_goals decide

/-- An all-whitespace character list is left unchanged by the HTML
escaper. -/
theorem htmlEscapeList_of_space (l : List Char) (h : ∀ c ∈ l, goIsSpace c = true) :
    htmlEscapeList l = l := by
  induction l with
  | nil => rfl
  | cons a as ih =>
      simp only [htmlEscapeList]
      rw [escapeCharL_of_space a (h a (List.mem_cons_self a as)),
        ih fun c hc => h c (List.mem_cons_of_mem a hc)]
      rfl

/-- An input that trims to nothing normalizes to the empty key. -/
theorem normalizeCity_of_trim_nil (s : String) (h : goTrimSpace s.data = []) :
    normalizeCity s = "" := by
  unfold normalizeCity
  rw [htmlEscapeList_of_space s.data ((goTrimSpace_eq_nil_iff s.data).mp h), h]
  rfl

/-- Applying `Char.ofNat` to a code below the surrogate range keeps its value. -/
theorem toNat_ofNat_small (n : Nat) (h : n < 55296) : (Char.ofNat n).toNat = n := by
  have hv : n.isValidChar := Or.inl h
  rw [Char.ofNat, dif_pos hv]
  rfl

/-- Characters produced by the HTML escaper are never a raw `<`, `>`,
double quote or apostrophe. -/
theorem escapeCharL_safe (a c : Char) (hc : c ∈ escapeCharL a) :
    c ≠ '<' ∧ c ≠ '>' ∧ c ≠ quot34 ∧ c ≠ apos39 := by
  unfold escapeCharL at hc
  split at hc
  · exact (by decide :
      ∀ x ∈ "&amp;".data, x ≠ '<' ∧ x ≠ '>' ∧ x ≠ quot34 ∧ x ≠ apos39) c hc
  split at hc
  · exact (by decide :
      ∀ x ∈ "&#39;".data, x ≠ '<' ∧ x ≠ '>' ∧ x ≠ quot34 ∧ x ≠ apos39) c hc
  split at hc
  · exact (by decide :
      ∀ x ∈ "&lt;".data, x ≠ '<' ∧ x ≠ '>' ∧ x ≠ quot34 ∧ x ≠ apos39) c hc
  split at hc
  · exact (by decide :
      ∀ x ∈ "&gt;".data, x ≠ '<' ∧ x ≠ '>' ∧ x ≠ quot34 ∧ x ≠ apos39) c hc
  split at hc
  · exact (by decide :
      ∀ x ∈ "&#34;".data, x ≠ '<' ∧ x ≠ '>' ∧ x ≠ quot34 ∧ x ≠ apos39) c hc
  · rename_i h1 h2 h3 h4 h5
    rw [List.mem_singleton] at hc
    subst hc
    exact ⟨h3, h4, h5, h2⟩

/-- No character of an HTML-escaped list is a raw `<`, `>`, double quote
or apostrophe. -/
theorem htmlEscapeList_safe (l : List Char) (c : Char) (hc : c ∈ htmlEscapeList l) :
    c ≠ '<' ∧ c ≠ '>' ∧ c ≠ quot34 ∧ c ≠ apos39 := by
  induction l with
  | nil => simp [htmlEscapeList] at hc
  | cons a as ih =>
      simp only [htmlEscapeList] at hc
      rcases List.mem_append.mp hc with h | h
      · exact escapeCharL_safe a c h
      · exact ih h

/-- UTF-8 bytes of a character are bytes. -/
theorem utf8Bytes_lt (c : Char) (b : Nat) (hb : b ∈ utf8Bytes c) : b < 256 := by
  have hv : c.toNat < 1114112 := by
    simp only [Char.toNat]
    rcases c.valid with h | ⟨_, h⟩
    · omega
    · omega
  simp only [utf8Bytes] at hb
  split at hb
  · simp at hb; omega
  split at hb
  · simp at hb; rcases hb with hb | hb <;> omega
  split at hb
  · simp at hb; rcases hb with hb | hb | hb <;> omega
  · simp at hb; rcases hb with hb | hb | hb | hb <;> omega

/-- An upper-case hex digit is an unreserved byte (a digit or an
upper-case letter). -/
theorem upperHexDigit_unreserved (n : Nat) (h : n < 16) :
    isUnreservedByte (upperHexDigit n).toNat = true := by
  unfold upperHexDigit
  split
  · rw [toNat_ofNat_small _ (by omega)]
    simp only [isUnreservedByte, Bool.or_eq_true, decide_eq_true_eq, Bool.and_eq_true]
    omega
  · rw [toNat_ofNat_small _ (by omega)]
    simp only [isUnreservedByte, Bool.or_eq_true, decide_eq_true_eq, Bool.and_eq_true]
    omega

/-- Every character emitted for one byte by the query escaper is an
unreserved character, `+`, or `%`. -/
theorem escapeByte_safe (b : Nat) (hb : b < 256) (c : Char) (hc : c ∈ escapeByte b) :
    isUnreservedByte c.toNat = true ∨ c = '+' ∨ c = '%' := by
  unfold escapeByte at hc
  split at hc
  · rename_i h
    rw [List.mem_singleton] at hc
    subst hc
    left
    rw [toNat_ofNat_small b (by omega)]
    exact h
  split at hc
  · rw [List.mem_singleton] at hc
    subst hc
    right; left; rfl
  · simp only [List.mem_cons, List.not_mem_nil, or_false] at hc
    rcases hc with rfl | rfl | rfl
    · right; right; rfl
    · exact Or.inl (upperHexDigit_unreserved (b / 16) (by omega))
    · exact Or.inl (upperHexDigit_unreserved (b % 16) (by omega))

/-- Every character of a query-escaped list is an unreserved character,
`+`, or `%`. -/
theorem queryEscapeList_safe (l : List Char) (c : Char) (hc : c ∈ queryEscapeList l) :
    isUnreservedByte c.toNat = true ∨ c = '+' ∨ c = '%' := by
  unfold queryEscapeList at hc
  rw [List.mem_flatten] at hc
  obtain ⟨s, hs, hcs⟩ := hc
  rw [List.mem_map] at hs
  obtain ⟨b, hb, rfl⟩ := hs
  rw [List.mem_flatten] at hb
  obtain ⟨bs, hbs, hbbs⟩ := hb
  rw [List.mem_map] at hbs
  obtain ⟨ch, _, rfl⟩ := hbs
  exact escapeByte_safe b (utf8Bytes_lt ch b hbbs) c hcs

deriving instance DecidableEq for Except

/-- Any URL `getWeatherData` fetches is the one built from the normalized
city and the API key. -/
theorem gwd_upstream_eq (city apiKey : String) (w : World) (u : String)
    (hu : u ∈ (getWeatherData city apiKey w).trace.upstreamCalls) :
    u = buildURL (normalizeCity city) apiKey := by
  simp only [getWeatherData] at hu
  split at hu
  · simp at hu
  split at hu
  · split at hu
    · simp_all
    · split at hu
      · split at hu
        · simp_all
        · split at hu <;> simp_all
      · simp_all
  · simp at hu

/-- A store with nothing cached and an unreachable upstream. -/
def emptyWorld : World :=
  ⟨fun _ => none, fun _ => false, fun _ _ => false, fun _ => .netErr⟩

/-- The payload of the pre-populated London scenario. -/
def londonValue : String :=
  "\x7b\"location\":\"London\",\"temperature\":\"15°C\"\x7d"

/-- A store pre-populated with the London payload; the upstream is
unreachable, so any upstream call would fail rather than serve data. -/
def londonWorld : World :=
  ⟨fun k => if k = "London" then some londonValue else none,
    fun _ => false, fun _ _ => false, fun _ => .netErr⟩

/-- An empty store with a healthy upstream answering 200 `"sunny"`. -/
def sunnyWorld : World :=
  ⟨fun _ => none, fun _ => false, fun _ _ => false,
    fun _ => .resp 200 (.ok "sunny")⟩

/-- An empty store with an upstream that answers status 500. -/
def badStatusWorld : World :=
  ⟨fun _ => none, fun _ => false, fun _ _ => false,
    fun _ => .resp 500 (.ok "")⟩

/-- A healthy upstream but a store whose `Set` always fails. -/
def failWriteWorld : World :=
  ⟨fun _ => none, fun _ => false, fun _ _ => true,
    fun _ => .resp 200 (.ok "sunny")⟩

/-- C1: on a cache read that comes back empty and an upstream 200
response whose body reads in full as `b`, `getWeatherData` issues exactly
one `Set` of `b` under the same normalized key with the one-hour TTL, and
— when that `Set` succeeds — returns `b` and leaves `b` stored under the
key. -/
theorem C1_miss_success_caches_and_returns (city apiKey b : String) (w : World)
    (hkey : normalizeCity city ≠ "")
    (hval : cacheVal w (normalizeCity city) = "")
    (hu : w.upstream (buildURL (normalizeCity city) apiKey) = .resp 200 (.ok b)) :
    (getWeatherData city apiKey w).trace.cacheWrites =
      [(normalizeCity city, b, timeHour)] ∧
    (w.writeFails (normalizeCity city) b = false →
      (getWeatherData city apiKey w).result = .ok b ∧
      (getWeatherData city apiKey w).store (normalizeCity city) = some b) := by
  constructor
  · cases hw : w.writeFails (normalizeCity city) b
    · rw [gwd_writeOk city apiKey w b hkey hval hu hw]
    · rw [gwd_writeFail city apiKey w b hkey hval hu hw]
  · intro hw
    rw [gwd_writeOk city apiKey w b hkey hval hu hw]
    exact ⟨rfl, by simp⟩

/-- Witness for C1 on the concrete world `sunnyWorld` and city `Paris`. -/
theorem C1_witness :
    (getWeatherData "Paris" "k" sunnyWorld).trace.cacheWrites =
      [("Paris", "sunny", timeHour)] ∧
    (sunnyWorld.writeFails "Paris" "sunny" = false →
      (getWeatherData "Paris" "k" sunnyWorld).result = .ok "sunny" ∧
      (getWeatherData "Paris" "k" sunnyWorld).store "Paris" = some "sunny") :=
  C1_miss_success_caches_and_returns "Paris" "k" "sunny" sunnyWorld
    (by decide) (by decide) rfl

/-- C2: a cache read that returns a non-empty value is returned verbatim
as a hit, with no upstream call, no write, and an unchanged store. -/
theorem C2_hit_returns_cached (city apiKey v : String) (w : World)
    (hkey : normalizeCity city ≠ "")
    (hrf : w.readFails (normalizeCity city) = false)
    (hv : w.store (normalizeCity city) = some v)
    (hne : v ≠ "") :
    (getWeatherData city apiKey w).result = .ok v ∧
    (getWeatherData city apiKey w).trace.upstreamCalls = [] ∧
    (getWeatherData city apiKey w).trace.cacheWrites = [] ∧
    (getWeatherData city apiKey w).store = w.store := by
  have hval : cacheVal w (normalizeCity city) = v := by
    simp [cacheVal, hrf, hv]
  have h2 : cacheVal w (normalizeCity city) ≠ "" := by
    rw [hval]; exact hne
  rw [gwd_hit city apiKey w hkey h2, hval]
  exact ⟨rfl, rfl, rfl, rfl⟩

/-- Witness for C2: the pre-populated London scenario returns the exact
stored string with no upstream call. -/
theorem C2_witness :
    (getWeatherData "London" "k" londonWorld).result = .ok londonValue ∧
    (getWeatherData "London" "k" londonWorld).trace.upstreamCalls = [] ∧
    (getWeatherData "London" "k" londonWorld).trace.cacheWrites = [] ∧
    (getWeatherData "London" "k" londonWorld).store = londonWorld.store :=
  C2_hit_returns_cached "London" "k" londonValue londonWorld
    (by decide) rfl (by decide) (by decide)

/-- C3: on a miss with a failing upstream (transport error or non-200
status), `getWeatherData` fails with an upstream-unavailable error, writes
nothing, and leaves the store unchanged. -/
theorem C3_upstream_failure_no_write (city apiKey : String) (w : World)
    (hkey : normalizeCity city ≠ "")
    (hval : cacheVal w (normalizeCity city) = "")
    (hfail : w.upstream (buildURL (normalizeCity city) apiKey) = .netErr ∨
      ∃ code body,
        w.upstream (buildURL (normalizeCity city) apiKey) = .resp code body ∧
        code ≠ 200) :
    (∃ e, (getWeatherData city apiKey w).result = .error e ∧
      isUpstreamUnavailable e = true) ∧
    (getWeatherData city apiKey w).trace.cacheWrites = [] ∧
    (getWeatherData city apiKey w).store = w.store := by
  rcases hfail with hu | ⟨code, body, hu, hc⟩
  · rw [gwd_netErr city apiKey w hkey hval hu]
    exact ⟨⟨.netErr, rfl, rfl⟩, rfl, rfl⟩
  · rw [gwd_badStatus city apiKey w code body hkey hval hu hc]
    exact ⟨⟨.badStatus code, rfl, rfl⟩, rfl, rfl⟩

/-- Witness for C3: `Nowhereville` against an upstream answering 500. -/
theorem C3_witness :
    (∃ e, (getWeatherData "Nowhereville" "k" badStatusWorld).result = .error e ∧
      isUpstreamUnavailable e = true) ∧
    (getWeatherData "Nowhereville" "k" badStatusWorld).trace.cacheWrites = [] ∧
    (getWeatherData "Nowhereville" "k" badStatusWorld).store = badStatusWorld.store :=
  C3_upstream_failure_no_write "Nowhereville" "k" badStatusWorld
    (by decide) rfl (Or.inr ⟨500, .ok "", rfl, by decide⟩)

/-- C4: when the upstream fetch succeeds but the `Set` fails, the fetched
payload is discarded and the write error is returned as the failure. -/
theorem C4_write_failure_discards_payload (city apiKey b : String) (w : World)
    (hkey : normalizeCity city ≠ "")
    (hval : cacheVal w (normalizeCity city) = "")
    (hu : w.upstream (buildURL (normalizeCity city) apiKey) = .resp 200 (.ok b))
    (hw : w.writeFails (normalizeCity city) b = true) :
    (getWeatherData city apiKey w).result = .error .writeErr ∧
    (getWeatherData city apiKey w).result ≠ .ok b := by
  rw [gwd_writeFail city apiKey w b hkey hval hu hw]
  exact ⟨rfl, fun h => nomatch h⟩

/-- Witness for C4 on the concrete world `failWriteWorld`. -/
theorem C4_witness :
    (getWeatherData "Paris" "k" failWriteWorld).result = .error .writeErr ∧
    (getWeatherData "Paris" "k" failWriteWorld).result ≠ .ok "sunny" :=
  C4_write_failure_discards_payload "Paris" "k" "sunny" failWriteWorld
    (by decide) rfl rfl rfl

/-- C5: an input that is empty or whitespace-only after trimming is
rejected with the empty-city error before any store read, write, or
upstream call, and the handler answers a 4xx (client-error) status. -/
theorem C5_empty_input_rejected (raw apiKey : String) (w : World)
    (h : goTrimSpace raw.data = []) :
    (getWeatherData raw apiKey w).result = .error .emptyCity ∧
    (getWeatherData raw apiKey w).trace = ⟨[], [], []⟩ ∧
    (getWeatherData raw apiKey w).store = w.store ∧
    (rootHandlerPost raw apiKey w).status = 404 ∧
    400 ≤ (rootHandlerPost raw apiKey w).status ∧
    (rootHandlerPost raw apiKey w).status < 500 := by
  have hk := normalizeCity_of_trim_nil raw h
  have hg := gwd_empty raw apiKey w hk
  have hr : rootHandlerPost raw apiKey w = ⟨404, "City not found", w.store, ⟨[], [], []⟩⟩ := by
    unfold rootHandlerPost
    rw [hg]
  rw [hg, hr]
  exact ⟨rfl, rfl, rfl, rfl, (by decide : (400 : Nat) ≤ 404),
    (by decide : (404 : Nat) < 500)⟩

/-- Witness for C5 on the whitespace-only input. -/
theorem C5_witness :
    (getWeatherData "   " "k" emptyWorld).result = .error .emptyCity ∧
    (getWeatherData "   " "k" emptyWorld).trace = ⟨[], [], []⟩ ∧
    (getWeatherData "   " "k" emptyWorld).store = emptyWorld.store ∧
    (rootHandlerPost "   " "k" emptyWorld).status = 404 ∧
    400 ≤ (rootHandlerPost "   " "k" emptyWorld).status ∧
    (rootHandlerPost "   " "k" emptyWorld).status < 500 :=
  C5_empty_input_rejected "   " "k" emptyWorld (by decide)

/-- C8: the HTML escaper leaves no raw `<`, `>`, double quote or
apostrophe in the value echoed back by `rootHandler`; the key used for
the upstream request path consists only of unreserved characters, `+`,
and the percent-escape marker `%` (so the path delimiters `/`, `?`, `#`
and the space are all encoded); and every upstream URL fetched is built
from that percent-encoded key. -/
theorem C8_escaping_before_echo_and_path (raw apiKey : String) (w : World) :
    (∀ c ∈ (htmlEscapeString raw).data,
        c ≠ '<' ∧ c ≠ '>' ∧ c ≠ quot34 ∧ c ≠ apos39) ∧
    (∀ c ∈ (normalizeCity raw).data,
        isUnreservedByte c.toNat = true ∨ c = '+' ∨ c = '%') ∧
    (∀ u ∈ (getWeatherData raw apiKey w).trace.upstreamCalls,
        u = buildURL (normalizeCity raw) apiKey) :=
  ⟨fun c hc => htmlEscapeList_safe raw.data c hc,
   fun c hc => queryEscapeList_safe (goTrimSpace (htmlEscapeList raw.data)) c hc,
   fun u hu => gwd_upstream_eq raw apiKey w u hu⟩

/-- Witness for C8 at the concrete input `"a b"` with an upstream call. -/
theorem C8_witness :
    ((Char.ofNat 97) ≠ '<' ∧ (Char.ofNat 97) ≠ '>' ∧
      (Char.ofNat 97) ≠ quot34 ∧ (Char.ofNat 97) ≠ apos39) ∧
    (isUnreservedByte (Char.ofNat 97).toNat = true ∨
      (Char.ofNat 97) = '+' ∨ (Char.ofNat 97) = '%') ∧
    buildURL "a+b" "k" = buildURL (normalizeCity "a b") "k" :=
  ⟨(C8_escaping_before_echo_and_path "a b" "k" emptyWorld).1 (Char.ofNat 97) (by decide),
   (C8_escaping_before_echo_and_path "a b" "k" emptyWorld).2.1 (Char.ofNat 97) (by decide),
   (C8_escaping_before_echo_and_path "a b" "k" emptyWorld).2.2 (buildURL "a+b" "k") (by decide)⟩

/-- The first of two successive calls. -/
theorem resolveTwice_fst (city apiKey : String) (w : World) :
    (resolveTwice city apiKey w).1 = getWeatherData city apiKey w := rfl

/-- The second of two successive calls runs on the store the first call
left behind. -/
theorem resolveTwice_snd (city apiKey : String) (w : World) :
    (resolveTwice city apiKey w).2 =
      getWeatherData city apiKey
        { w with store := (getWeatherData city apiKey w).store } := rfl

/-- Counterexample to C6 as stated: with an upstream answering 500, two
successive `resolve("Paris")` calls issue two upstream calls (no negative
caching), not at most one. -/
theorem C6_counterexample :
    ¬ ((resolveTwice "Paris" "k" badStatusWorld).1.trace.upstreamCalls.length +
        (resolveTwice "Paris" "k" badStatusWorld).2.trace.upstreamCalls.length ≤ 1) ∧
    (resolveTwice "Paris" "k" badStatusWorld).1.trace.upstreamCalls.length +
      (resolveTwice "Paris" "k" badStatusWorld).2.trace.upstreamCalls.length = 2 := by
  decide

/-- C6 (amended): two successive `resolve(key)` calls issue at most one
upstream call, and the second is a cache hit returning the same payload,
provided the first call succeeds with a non-empty payload and the store
read does not fail. -/
theorem C6_second_call_is_hit (city apiKey b : String) (w : World)
    (hrf : w.readFails (normalizeCity city) = false)
    (h1 : (getWeatherData city apiKey w).result = .ok b)
    (hb : b ≠ "") :
    (resolveTwice city apiKey w).1.trace.upstreamCalls.length +
      (resolveTwice city apiKey w).2.trace.upstreamCalls.length ≤ 1 ∧
    (resolveTwice city apiKey w).2.result = .ok b ∧
    (resolveTwice city apiKey w).2.trace.upstreamCalls = [] ∧
    (resolveTwice city apiKey w).2.trace.cacheWrites = [] := by
  by_cases hkey : normalizeCity city = ""
  · rw [gwd_empty city apiKey w hkey] at h1
    simp at h1
  by_cases hval : cacheVal w (normalizeCity city) = ""
  · -- the first call was a miss, so it must have fetched and cached b
    cases hu : w.upstream (buildURL (normalizeCity city) apiKey) with
    | netErr =>
        rw [gwd_netErr city apiKey w hkey hval hu] at h1
        simp at h1
    | resp code body =>
        by_cases hc : code = 200
        · subst hc
          cases body with
          | failed =>
              rw [gwd_readErr city apiKey w hkey hval hu] at h1
              simp at h1
          | ok bb =>
              cases hw : w.writeFails (normalizeCity city) bb with
              | true =>
                  rw [gwd_writeFail city apiKey w bb hkey hval hu hw] at h1
                  simp at h1
              | false =>
                  have e1 := gwd_writeOk city apiKey w bb hkey hval hu hw
                  rw [e1] at h1
                  have hbb : bb = b := by simpa using h1
                  subst hbb
                  have hval2 : cacheVal
                      { w with store := (getWeatherData city apiKey w).store }
                      (normalizeCity city) = bb := by
                    rw [e1]
                    simp [cacheVal, hrf]
                  have hne2 : cacheVal
                      { w with store := (getWeatherData city apiKey w).store }
                      (normalizeCity city) ≠ "" := by
                    rw [hval2]; exact hb
                  have e2 := gwd_hit city apiKey
                    { w with store := (getWeatherData city apiKey w).store } hkey hne2
                  rw [resolveTwice_fst, resolveTwice_snd, e2, hval2, e1]
                  exact ⟨Nat.le.refl, rfl, rfl, rfl⟩
        · rw [gwd_badStatus city apiKey w code body hkey hval hu hc] at h1
          simp at h1
  · -- the first call was already a hit
    have e1 := gwd_hit city apiKey w hkey hval
    rw [e1] at h1
    have hvb : cacheVal w (normalizeCity city) = b := by simpa using h1
    have hw2 : ({ w with store := (getWeatherData city apiKey w).store } : World) = w := by
      rw [e1]
    rw [resolveTwice_fst, resolveTwice_snd, hw2, e1, hvb]
    exact ⟨Nat.zero_le 1, rfl, rfl, rfl⟩

/-- Witness for the amended C6 on the concrete world `sunnyWorld`. -/
theorem C6_witness :
    (resolveTwice "Paris" "k" sunnyWorld).1.trace.upstreamCalls.length +
      (resolveTwice "Paris" "k" sunnyWorld).2.trace.upstreamCalls.length ≤ 1 ∧
    (resolveTwice "Paris" "k" sunnyWorld).2.result = .ok "sunny" ∧
    (resolveTwice "Paris" "k" sunnyWorld).2.trace.upstreamCalls = [] ∧
    (resolveTwice "Paris" "k" sunnyWorld).2.trace.cacheWrites = [] :=
  C6_second_call_is_hit "Paris" "k" "sunny" sunnyWorld rfl rfl (by decide)

/-- A store pre-populated under the already-escaped key `New+York`; the
upstream is unreachable. -/
def cex7World : World :=
  ⟨fun k => if k = "New+York" then some "sunny" else none,
    fun _ => false, fun _ _ => false, fun _ => .netErr⟩

/-- Counterexample to C7 as stated: `getWeatherData` re-normalizes its
argument, so with `sunny` stored under the key `New+York`,
`resolve("New+York")` looks up `New%2BYork`, misses, and does not return
the stored value. -/
theorem C7_counterexample :
    cex7World.store "New+York" = some "sunny" ∧
    (getWeatherData "New+York" "k" cex7World).result ≠ .ok "sunny" ∧
    (getWeatherData "New+York" "k" cex7World).result = .error .netErr :=
  ⟨rfl, by decide, rfl⟩

/-- C7 (amended): for every non-empty key that normalization leaves
unchanged and every non-empty value stored under it (still unexpired, the
read succeeding), `resolve(key)` returns the value verbatim with no
upstream call. -/
theorem C7_roundtrip_fixed_key (key v apiKey : String) (w : World)
    (hfix : normalizeCity key = key)
    (hkey : key ≠ "")
    (hrf : w.readFails key = false)
    (hv : w.store key = some v)
    (hne : v ≠ "") :
    (getWeatherData key apiKey w).result = .ok v ∧
    (getWeatherData key apiKey w).trace.upstreamCalls = [] := by
  have hkey2 : normalizeCity key ≠ "" := by rw [hfix]; exact hkey
  have hval : cacheVal w (normalizeCity key) = v := by
    rw [hfix]; simp [cacheVal, hrf, hv]
  have hval2 : cacheVal w (normalizeCity key) ≠ "" := by
    rw [hval]; exact hne
  rw [gwd_hit key apiKey w hkey2 hval2, hval]
  exact ⟨rfl, rfl⟩

/-- Witness for the amended C7 on the pre-populated London store. -/
theorem C7_witness :
    (getWeatherData "London" "k" londonWorld).result = .ok londonValue ∧
    (getWeatherData "London" "k" londonWorld).trace.upstreamCalls = [] :=
  C7_roundtrip_fixed_key "London" londonValue "k" londonWorld
    (by decide) (by decide) rfl (by decide) (by decide)

/-- An empty store with an upstream answering 200 with an empty body. -/
def emptyBodyWorld : World :=
  ⟨fun _ => none, fun _ => false, fun _ _ => false, fun _ => .resp 200 (.ok "")⟩

/-- C9: a 200 response with an empty body is cached under the key with
the one-hour TTL and returned without error, but the next call treats the
stored empty value as a miss and issues a new upstream call. -/
theorem C9_empty_payload_cached_never_hit (city apiKey : String) (w : World)
    (hkey : normalizeCity city ≠ "")
    (hrf : w.readFails (normalizeCity city) = false)
    (hval : cacheVal w (normalizeCity city) = "")
    (hu : w.upstream (buildURL (normalizeCity city) apiKey) = .resp 200 (.ok ""))
    (hw : w.writeFails (normalizeCity city) "" = false) :
    (resolveTwice city apiKey w).1.result = .ok "" ∧
    (resolveTwice city apiKey w).1.trace.cacheWrites =
      [(normalizeCity city, "", timeHour)] ∧
    (resolveTwice city apiKey w).1.store (normalizeCity city) = some "" ∧
    (resolveTwice city apiKey w).2.trace.upstreamCalls =
      [buildURL (normalizeCity city) apiKey] := by
  have e1 := gwd_writeOk city apiKey w "" hkey hval hu hw
  have hval2 : cacheVal
      { w with store := (getWeatherData city apiKey w).store }
      (normalizeCity city) = "" := by
    rw [e1]
    simp [cacheVal, hrf]
  have e2 := gwd_writeOk city apiKey
    { w with store := (getWeatherData city apiKey w).store } "" hkey hval2 hu hw
  rw [resolveTwice_fst, resolveTwice_snd, e2, e1]
  exact ⟨rfl, rfl, by simp, rfl⟩

/-- Witness for C9 on the concrete world `emptyBodyWorld`. -/
theorem C9_witness :
    (resolveTwice "Paris" "k" emptyBodyWorld).1.result = .ok "" ∧
    (resolveTwice "Paris" "k" emptyBodyWorld).1.trace.cacheWrites =
      [("Paris", "", timeHour)] ∧
    (resolveTwice "Paris" "k" emptyBodyWorld).1.store "Paris" = some "" ∧
    (resolveTwice "Paris" "k" emptyBodyWorld).2.trace.upstreamCalls =
      [buildURL "Paris" "k"] :=
  C9_empty_payload_cached_never_hit "Paris" "k" emptyBodyWorld
    (by decide) rfl rfl rfl rfl

/-- The cache-miss counterpart of a world: the read no longer fails and
the key is simply absent. -/
def asMissWorld (key : String) (w : World) : World :=
  { w with readFails := fun _ => false,
           store := fun k => if k = key then none else w.store k }

/-- C10: a failing store read is silently discarded — the call behaves
exactly (same result, same issued commands) as if the key were absent
with a healthy store, and on a non-empty key it proceeds to the upstream
call. -/
theorem C10_read_failure_treated_as_miss (city apiKey : String) (w : World)
    (h : w.readFails (normalizeCity city) = true) :
    (getWeatherData city apiKey w).result =
      (getWeatherData city apiKey (asMissWorld (normalizeCity city) w)).result ∧
    (getWeatherData city apiKey w).trace =
      (getWeatherData city apiKey (asMissWorld (normalizeCity city) w)).trace ∧
    (normalizeCity city ≠ "" →
      (getWeatherData city apiKey w).trace.upstreamCalls =
        [buildURL (normalizeCity city) apiKey]) := by
  by_cases hkey : normalizeCity city = ""
  · rw [gwd_empty city apiKey w hkey, gwd_empty city apiKey _ hkey]
    exact ⟨rfl, rfl, fun hne => absurd hkey hne⟩
  · have hval1 : cacheVal w (normalizeCity city) = "" := by
      simp [cacheVal, h]
    have hval2 : cacheVal (asMissWorld (normalizeCity city) w) (normalizeCity city) = "" := by
      simp [cacheVal, asMissWorld]
    cases hu : w.upstream (buildURL (normalizeCity city) apiKey) with
    | netErr =>
        rw [gwd_netErr city apiKey w hkey hval1 hu,
          gwd_netErr city apiKey _ hkey hval2 hu]
        exact ⟨rfl, rfl, fun _ => rfl⟩
    | resp code body =>
        by_cases hc : code = 200
        · subst hc
          cases body with
          | failed =>
              rw [gwd_readErr city apiKey w hkey hval1 hu,
                gwd_readErr city apiKey _ hkey hval2 hu]
              exact ⟨rfl, rfl, fun _ => rfl⟩
          | ok bb =>
              cases hw : w.writeFails (normalizeCity city) bb with
              | false =>
                  rw [gwd_writeOk city apiKey w bb hkey hval1 hu hw,
                    gwd_writeOk city apiKey _ bb hkey hval2 hu hw]
                  exact ⟨rfl, rfl, fun _ => rfl⟩
              | true =>
                  rw [gwd_writeFail city apiKey w bb hkey hval1 hu hw,
                    gwd_writeFail city apiKey _ bb hkey hval2 hu hw]
                  exact ⟨rfl, rfl, fun _ => rfl⟩
        · rw [gwd_badStatus city apiKey w code body hkey hval1 hu hc,
            gwd_badStatus city apiKey _ code body hkey hval2 hu hc]
          exact ⟨rfl, rfl, fun _ => rfl⟩

/-- A populated store whose reads all fail, with a healthy upstream. -/
def readFailWorld : World :=
  ⟨fun k => if k = "London" then some londonValue else none,
    fun _ => true, fun _ _ => false, fun _ => .resp 200 (.ok "fresh")⟩

/-- Witness for C10 on the concrete world `readFailWorld`. -/
theorem C10_witness :
    (getWeatherData "London" "k" readFailWorld).result =
      (getWeatherData "London" "k" (asMissWorld (normalizeCity "London") readFailWorld)).result ∧
    (getWeatherData "London" "k" readFailWorld).trace =
      (getWeatherData "London" "k" (asMissWorld (normalizeCity "London") readFailWorld)).trace ∧
    (normalizeCity "London" ≠ "" →
      (getWeatherData "London" "k" readFailWorld).trace.upstreamCalls =
        [buildURL (normalizeCity "London") "k"]) :=
  C10_read_failure_treated_as_miss "London" "k" readFailWorld rfl

example : normalizeCity "London" = "London" := by decide
example : normalizeCity "  New York " = "New+York" := by decide
example : normalizeCity "New+York" = "New%2BYork" := by decide
example : normalizeCity "   " = "" := by decide
